import Mathlib

set_option maxHeartbeats 1000000

/-!
Shallow embedding of the MaxScale cache storage_redis module
(server/modules/filter/cache/storage/storage_redis/redisstorage.cc).

Byte buffers (CacheKey::to_vector, GWBUF contents, invalidation words) are
modelled as lists of naturals.  A redis reply is the tagged tree used by the
Reply wrapper class; the pipelined connection is modelled as the list of read
results that successive redisGetReply calls produce, consumed in order.  An
exhausted list behaves like an I/O failure.

mxb_assert is compiled in debug builds; a failed assertion, and likewise a
Reply.element access whose precondition (array reply, index in range) is
violated, is modelled as the Outcome.crash value, since in a release build
such an access reads through an invalid element pointer.
-/

abbrev Bytes := List Nat

/-- Tagged redis reply, mirroring the redisReply values wrapped by the
Reply class in redisstorage.cc (ARRAY, ERROR, INTEGER, NIL, STATUS, STRING). -/
inductive Reply where
  | array (elements : List Reply)
  | error (msg : String)
  | integer (value : Int)
  | nil
  | status (msg : String)
  | string (bytes : Bytes)

/-- Reply.is_array of redisstorage.cc. -/
def Reply.is_array : Reply → Bool
  | Reply.array _ => true
  | _ => false

/-- Reply.is_error of redisstorage.cc. -/
def Reply.is_error : Reply → Bool
  | Reply.error _ => true
  | _ => false

/-- Reply.is_integer of redisstorage.cc. -/
def Reply.is_integer : Reply → Bool
  | Reply.integer _ => true
  | _ => false

/-- Reply.is_nil of redisstorage.cc. -/
def Reply.is_nil : Reply → Bool
  | Reply.nil => true
  | _ => false

/-- Reply.is_status with a null zValue: only the type is checked. -/
def Reply.is_status : Reply → Bool
  | Reply.status _ => true
  | _ => false

/-- Reply.is_status with a non null zValue: the type is checked and the
status text is compared with strcmp. -/
def Reply.is_status_eq (r : Reply) (zValue : String) : Bool :=
  match r with
  | Reply.status m => decide (m = zValue)
  | _ => false

/-- Reply.is_string of redisstorage.cc. -/
def Reply.is_string : Reply → Bool
  | Reply.string _ => true
  | _ => false

/-- Outcome of one redisGetReply call on the connection: a reply, or an
I/O or protocol failure (any rv other than REDIS_OK). -/
inductive ReadResult where
  | ok (reply : Reply)
  | ioError

/-- Redis.getReply: consume the next pipelined read result.  A failure, and
also an exhausted stream, yields none. -/
def getReply : List ReadResult → Option Reply × List ReadResult
  | [] => (none, [])
  | ReadResult.ok r :: rest => (some r, rest)
  | ReadResult.ioError :: rest => (none, rest)

/-- Redis.expect_status (redisstorage.cc lines 309 to 343).  The source reads
one reply; on a read failure it reports failure, and on a status reply it
reports success exactly when the text equals zValue.  In the branch for a
reply that is not a status (lines 330 to 335) the source logs an error but
never assigns REDIS_ERR to rv, so the function reports success for any
non status reply; the model reproduces that behaviour. -/
def expect_status (zValue : String) (s : List ReadResult) : Bool × List ReadResult :=
  match getReply s with
  | (none, s1) => (false, s1)
  | (some reply, s1) =>
    match reply with
    | Reply.status m => (decide (m = zValue), s1)
    | _ => (true, s1)

/-- Redis.expect_n_status (lines 345 to 358): applies expect_status n times,
consuming all n replies, and reports success only if every one succeeded. -/
def expect_n_status : Nat → String → List ReadResult → Bool × List ReadResult
  | 0, _, s => (true, s)
  | n + 1, z, s =>
    match expect_status z s with
    | (b1, s1) =>
      match expect_n_status n z s1 with
      | (b2, s2) => (b1 && b2, s2)

/-- Result codes of the cache storage API that this module returns. -/
inductive cache_result_t where
  | OK
  | NOT_FOUND
  | ERROR
  | PENDING
deriving DecidableEq, Repr

/-- Outcome of a pool job once the replies have been consumed: either a
result value is delivered to the worker, or the job crashes (a failed
mxb_assert in a debug build, or an out of range Reply.element access). -/
inductive Outcome (α : Type) where
  | delivered (result : α)
  | crash
deriving DecidableEq, Repr

/-- Commands sent to the redis server, as issued by redisAppendCommand and
redisAppendCommandArgv in redisstorage.cc.  The SET constructor carries the
PX option as an optional millisecond count so that its absence is
representable; the source of put_value always supplies it. -/
inductive Command where
  | MULTI
  | EXEC
  | GET (key : Bytes)
  | SET (key : Bytes) (value : Bytes) (px : Option Nat)
  | DEL (keys : List Bytes)
  | HSET (hash : Bytes) (field : Bytes) (value : String)
  | HGETALL (hash : Bytes)
  | HDEL (hash : Bytes) (fields : List Bytes)
deriving DecidableEq, Repr

/-- RedisToken.get_value reply classification (redisstorage.cc lines 416 to
444): pValue starts as null and rv as CACHE_RESULT_ERROR; a STRING reply
loads a fresh buffer with the reply bytes and yields OK, a NIL reply yields
NOT_FOUND, every other reply type and a failed read only log. -/
def get_value_job (r : Option Reply) : cache_result_t × Option Bytes :=
  match r with
  | some (Reply.string b) => (cache_result_t.OK, some b)
  | some Reply.nil => (cache_result_t.NOT_FOUND, none)
  | some _ => (cache_result_t.ERROR, none)
  | none => (cache_result_t.ERROR, none)

/-- RedisToken.del_value reply classification (lines 598 to 632): an integer
reply of 0 yields NOT_FOUND; the switch falls through from the warning
default case into case 1, so every other integer yields OK; a non integer
reply or a failed read leaves rv as CACHE_RESULT_ERROR. -/
def del_value_job (r : Option Reply) : cache_result_t :=
  match r with
  | some (Reply.integer i) =>
    if i = 0 then cache_result_t.NOT_FOUND else cache_result_t.OK
  | some _ => cache_result_t.ERROR
  | none => cache_result_t.ERROR

/-- Commands appended by RedisToken.put_value (lines 473 to 514): MULTI,
one HSET per invalidation word in list order with the key as the field and
the literal text 1 as the value, then the SET of the value, then EXEC.
The source always formats the SET as SET key value PX ttl, so the PX
option is present even when the ttl is zero. -/
def put_value_send (ttl : Nat) (rkey : Bytes) (invalidation_words : List Bytes) (value : Bytes) : List Command :=
  (invalidation_words.foldl (fun acc w => acc ++ [Command.HSET w rkey ("1")]) [Command.MULTI])
    ++ [Command.SET rkey value (some ttl), Command.EXEC]

/-- Consumption of the EXEC reply in put_value (lines 526 to 557) for n
invalidation words, in a debug build: the source asserts that the reply is
an array of n + 1 elements whose first n elements are integers, reads
element n, asserts that it is a status, and yields ERROR exactly when the
status text differs from OK.  Each violated assertion, and the out of range
element access it guards, is the crash outcome. -/
def put_value_consume_exec (n : Nat) (reply : Reply) : Outcome cache_result_t :=
  match reply with
  | Reply.array elems =>
    if elems.length = n + 1 then
      if (elems.take n).all Reply.is_integer then
        match elems.get? n with
        | some (Reply.status m) =>
          if m = ("OK") then Outcome.delivered cache_result_t.OK
          else Outcome.delivered cache_result_t.ERROR
        | _ => Outcome.crash
      else Outcome.crash
    else Outcome.crash
  | _ => Outcome.crash

/-- Reply consumption of RedisToken.put_value (lines 516 to 572) for n
invalidation words: rv starts as CACHE_RESULT_OK; when expect_status
succeeds for MULTI the source consumes n + 1 QUEUED statuses, reads the
EXEC reply (a failed read yields ERROR) and classifies it; when
expect_status fails, the branch at lines 566 to 572 assigns
CACHE_RESULT_ERROR to the int variable rc instead of to rv, so rv keeps
the value CACHE_RESULT_OK that is then delivered. -/
def put_value_deliver (n : Nat) (s : List ReadResult) : Outcome cache_result_t :=
  match expect_status ("OK") s with
  | (true, s1) =>
    match getReply (expect_n_status (n + 1) ("QUEUED") s1).2 with
    | (some reply, _) => put_value_consume_exec n reply
    | (none, _) => Outcome.delivered cache_result_t.ERROR
  | (false, _) => Outcome.delivered cache_result_t.OK

/-- Fields collected from one HGETALL array reply (lines 706 to 723): the
elements at even indices are the hash fields; a string field is collected,
any other type is logged and skipped, and the values at odd indices are
never inspected. -/
def even_fields : List Reply → List Bytes
  | [] => []
  | [Reply.string b] => [b]
  | [_] => []
  | Reply.string b :: _ :: rest => b :: even_fields rest
  | _ :: _ :: rest => even_fields rest

/-- Phase A of RedisToken.invalidate (lines 687 to 738): one reply is read
per word; an array reply contributes the pair of the word and its collected
fields to hdel_argvs (even when no field was collected) and appends the
fields to the DEL argument list; a non array reply or a failed read
contributes nothing.  The result is (hdel_argvs, del_keys, rest of stream). -/
def phaseA : List Bytes → List ReadResult → List (Bytes × List Bytes) × List Bytes × List ReadResult
  | [], s => ([], [], s)
  | w :: ws, s =>
    match getReply s with
    | (r, s1) =>
      match phaseA ws s1 with
      | (hd, dl, s2) =>
        match r with
        | some (Reply.array elems) =>
          ((w, even_fields elems) :: hd, even_fields elems ++ dl, s2)
        | _ => (hd, dl, s2)

/-- Commands issued by RedisToken.invalidate (lines 650 to 773): one HGETALL
per word, then, only when at least one key was gathered, MULTI, one HDEL per
word whose argument vector holds more than the command and the hash (that
is, at least one field), the DEL of all gathered keys, and EXEC. -/
def invalidate_send (words : List Bytes) (s : List ReadResult) : List Command :=
  match phaseA words s with
  | (hd, dl, _) =>
    if dl.isEmpty then words.map Command.HGETALL
    else
      words.map Command.HGETALL ++ [Command.MULTI]
        ++ ((hd.filter fun p => !p.2.isEmpty).map fun p => Command.HDEL p.1 p.2)
        ++ [Command.DEL dl, Command.EXEC]

/-- Consumption of the EXEC reply in invalidate (lines 782 to 804) for k
entries in hdel_argvs, in a debug build: the source asserts that the reply
is an array of k + 1 elements and that every element it reads (the k HDEL
counts and the DEL count) is an integer; nothing further is checked, so a
reply that satisfies the assertions leaves rv as CACHE_RESULT_OK. -/
def invalidate_consume_exec (k : Nat) (reply : Reply) : Outcome cache_result_t :=
  match reply with
  | Reply.array elems =>
    if elems.length = k + 1 then
      if elems.all Reply.is_integer then Outcome.delivered cache_result_t.OK
      else Outcome.crash
    else Outcome.crash
  | _ => Outcome.crash

/-- Reply consumption and result of RedisToken.invalidate (lines 740 to 824):
rv starts as CACHE_RESULT_OK; when no key was gathered in phase A the
transaction is skipped entirely and OK is delivered; otherwise expect_status
is applied to the MULTI reply (failure assigns ERROR to rv at line 820),
hdel_argvs.size + 1 QUEUED statuses are consumed, and the EXEC reply is
read (a failed read assigns ERROR) and checked by the debug assertions. -/
def invalidate_deliver (words : List Bytes) (s : List ReadResult) : Outcome cache_result_t :=
  match phaseA words s with
  | (hd, dl, s1) =>
    if dl.isEmpty then Outcome.delivered cache_result_t.OK
    else
      match expect_status ("OK") s1 with
      | (true, s2) =>
        match getReply (expect_n_status (hd.length + 1) ("QUEUED") s2).2 with
        | (some reply, _) => invalidate_consume_exec hd.length reply
        | (none, _) => Outcome.delivered cache_result_t.ERROR
      | (false, _) => Outcome.delivered cache_result_t.ERROR

/-- Decimal digit run to a natural number; none when the run is empty or a
non digit occurs. -/
def digits_to_nat (cs : List Char) : Option Nat :=
  if cs.isEmpty then none
  else if cs.all Char.isDigit then
    some (cs.foldl (fun a c => 10 * a + (c.toNat - 48)) 0)
  else none

/-- Modelled from the spec: mxb::get_int (maxbase, not under src) parses the
whole field as a decimal integer, with an optional leading minus sign
(codepoint 45).  The int range check of the C implementation is not
modelled. -/
def get_int (s : String) : Option Int :=
  match s.toList with
  | [] => none
  | c :: cs =>
    if c.toNat = 45 then
      match digits_to_nat cs with
      | some v => some (-(v : Int))
      | none => none
    else
      match digits_to_nat (c :: cs) with
      | some v => some ((v : Int))
      | none => none

/-- Modelled from the spec: helper of strtok_colon accumulating the current
field; the colon delimiter is codepoint 58. -/
def strtok_colon_aux : List Char → List Char → List String
  | [], acc => if acc.isEmpty then [] else [String.mk acc]
  | c :: rest, acc =>
    if c.toNat = 58 then
      if acc.isEmpty then strtok_colon_aux rest []
      else String.mk acc :: strtok_colon_aux rest []
    else strtok_colon_aux rest (acc ++ [c])

/-- Modelled from the spec: mxb::strtok (maxbase, not under src) with the
colon delimiter used by RedisStorage.create; C strtok semantics, so
consecutive, leading and trailing delimiters yield no empty fields. -/
def strtok_colon (s : String) : List String :=
  strtok_colon_aux s.toList []

/-- RedisStorage.create (redisstorage.cc lines 905 to 947): the arguments are
accepted exactly when they split into two colon separated fields and the
second parses with mxb::get_int to an integer strictly greater than zero;
the result is the host and port of the constructed storage, none standing
for the null pointer.  The max_size and max_count warnings do not affect
acceptance and are not modelled. -/
def RedisStorage.create (arguments : String) : Option (String × Int) :=
  match strtok_colon arguments with
  | [host, port_str] =>
    match get_int port_str with
    | some port => if 0 < port then some (host, port) else none
    | _ => none
  | _ => none

/-- RedisToken state relevant to the model: the worker captured by
mxb::Worker::get_current() in the constructor (lines 843 to 848) and the
ttl of the storage.  Workers are identified by naturals. -/
structure RedisToken where
  m_pWorker : Nat
  m_ttl : Nat
deriving DecidableEq

/-- RedisToken construction: the constructor stores the worker that is
current on the constructing thread, passed here as an argument. -/
def RedisToken.create (current_worker : Nat) (ttl : Nat) : RedisToken :=
  { m_pWorker := current_worker, m_ttl := ttl }

/-- Number of user callback invocations performed by the completion closure
(lines 446 to 455 and its three siblings): the callback runs exactly once
when a reference besides the job itself remains (use count above one) and
not at all otherwise. -/
def cb_invocations (use_count : Nat) : Nat :=
  if 1 < use_count then 1 else 0

/-- Completion posted by a pool job: the worker it is posted to via
m_pWorker->execute, the number of callback invocations, and the result. -/
structure Completion (α : Type) where
  worker : Nat
  invocations : Nat
  result : α

/-- The completion of a get_value pool job. -/
def RedisToken.run_get_value (t : RedisToken) (use_count : Nat) (r : Option Reply) :
    Completion (cache_result_t × Option Bytes) :=
  ⟨t.m_pWorker, cb_invocations use_count, get_value_job r⟩

/-- The completion of a del_value pool job. -/
def RedisToken.run_del_value (t : RedisToken) (use_count : Nat) (r : Option Reply) :
    Completion cache_result_t :=
  ⟨t.m_pWorker, cb_invocations use_count, del_value_job r⟩

/-- The completion of a put_value pool job for n invalidation words; none
when the job crashes before posting. -/
def RedisToken.run_put_value (t : RedisToken) (use_count : Nat) (n : Nat) (s : List ReadResult) :
    Option (Completion cache_result_t) :=
  match put_value_deliver n s with
  | Outcome.delivered rv => some ⟨t.m_pWorker, cb_invocations use_count, rv⟩
  | Outcome.crash => none

/-- The completion of an invalidate pool job; none when the job crashes
before posting. -/
def RedisToken.run_invalidate (t : RedisToken) (use_count : Nat) (words : List Bytes) (s : List ReadResult) :
    Option (Completion cache_result_t) :=
  match invalidate_deliver words s with
  | Outcome.delivered rv => some ⟨t.m_pWorker, cb_invocations use_count, rv⟩
  | Outcome.crash => none

/- ================= theorems ================= -/

theorem foldl_append_map {α β : Type} (f : α → β) (ws : List α) (acc : List β) :
    ws.foldl (fun a w => a ++ [f w]) acc = acc ++ ws.map f := by
  induction ws generalizing acc with
  | nil => simp
  | cons w ws ih => simp [List.foldl_cons, ih]

theorem expect_status_stream (z : String) (s : List ReadResult) :
    (expect_status z s).2 = s.tail := by
  cases s with
  | nil => rfl
  | cons x rest =>
    cases x with
    | ok r => cases r <;> rfl
    | ioError => rfl

theorem expect_n_status_stream (n : Nat) (z : String) (s : List ReadResult) :
    (expect_n_status n z s).2 = s.drop n := by
  induction n generalizing s with
  | zero => rfl
  | succ m ih =>
    have h1 : (expect_status z s).2 = s.tail := expect_status_stream z s
    have h2 : (expect_n_status m z (expect_status z s).2).2 = ((expect_status z s).2).drop m :=
      ih (expect_status z s).2
    calc (expect_n_status (m + 1) z s).2
        = (expect_n_status m z (expect_status z s).2).2 := rfl
      _ = ((expect_status z s).2).drop m := h2
      _ = (s.tail).drop m := by rw [h1]
      _ = (s.drop 1).drop m := by rw [List.drop_one]
      _ = s.drop (m + 1) := by rw [List.drop_drop, Nat.add_comm 1 m]

theorem cb_invocations_le_one (u : Nat) : cb_invocations u ≤ 1 := by
  unfold cb_invocations
  split <;> simp

theorem put_value_consume_exec_status_ne (n : Nat) (elems : List Reply) (m : String)
    (hlen : elems.length = n + 1)
    (hints : ((elems.take n).all Reply.is_integer) = true)
    (hlast : elems.get? n = some (Reply.status m))
    (hm : ¬ m = ("OK")) :
    put_value_consume_exec n (Reply.array elems) = Outcome.delivered cache_result_t.ERROR := by
  simp only [put_value_consume_exec]
  rw [if_pos hlen, if_pos hints, hlast]
  show (if m = ("OK") then Outcome.delivered cache_result_t.OK
        else Outcome.delivered cache_result_t.ERROR) = Outcome.delivered cache_result_t.ERROR
  rw [if_neg hm]

/-- Claim C1: the claim states that a MULTI reply that is not Status OK, or
a failed read of the MULTI reply, makes put_value deliver ERROR.  The code
instead delivers OK in both cases: the mismatch branch assigns
CACHE_RESULT_ERROR to rc instead of rv (line 571), so rv keeps
CACHE_RESULT_OK.  This theorem evaluates the model at both failing inputs. -/
theorem put_value_multi_mismatch_delivers_ok :
    put_value_deliver 0 [ReadResult.ok (Reply.status ("ERR"))]
        = Outcome.delivered cache_result_t.OK
  ∧ put_value_deliver 0 [ReadResult.ioError]
        = Outcome.delivered cache_result_t.OK := by
  exact ⟨by decide, by decide⟩

/-- Claim C2: the claim states that the PX option is omitted from the SET
command when the ttl is zero.  The code always formats SET key value PX ttl
(line 505), so with ttl zero the command PX 0 is sent.  This theorem
evaluates the issued commands at ttl zero: the SET carries PX 0 and the
variant without PX does not occur. -/
theorem put_value_ttl_zero_sends_px_zero :
    put_value_send 0 [1] [] [2]
        = [Command.MULTI, Command.SET [1] [2] (some 0), Command.EXEC]
  ∧ Command.SET [1] [2] none ∉ put_value_send 0 [1] [] [2] := by
  exact ⟨rfl, by decide⟩

/-- Claim C3 counterexample: with no invalidation words, a MULTI status OK,
one QUEUED status and an EXEC reply of NIL (not an array of length one with
a status element), the claim predicts a delivered ERROR; the code instead
violates the array assertion and reads an element of a non array reply, so
the job crashes. -/
theorem put_value_exec_nil_crashes :
    put_value_deliver 0 [ReadResult.ok (Reply.status ("OK")),
                         ReadResult.ok (Reply.status ("QUEUED")),
                         ReadResult.ok Reply.nil]
        = Outcome.crash
  ∧ put_value_deliver 0 [ReadResult.ok (Reply.status ("OK")),
                         ReadResult.ok (Reply.status ("QUEUED")),
                         ReadResult.ok Reply.nil]
        ≠ Outcome.delivered cache_result_t.ERROR := by
  exact ⟨by decide, by decide⟩

/-- Claim C3 amended: in put_value, when the EXEC reply is an Array of
length n + 1 whose first n elements are Integers and whose element at index
n is a Status different from OK, the operation delivers ERROR; EXEC replies
of any other shape violate the debug assertions or the element access
preconditions (modelled as a crash) instead of degrading to ERROR. -/
theorem put_value_exec_set_status_mismatch (n : Nat) (qs : List ReadResult)
    (elems : List Reply) (m : String)
    (hq : qs.length = n + 1)
    (hlen : elems.length = n + 1)
    (hints : ((elems.take n).all Reply.is_integer) = true)
    (hlast : elems.get? n = some (Reply.status m))
    (hm : ¬ m = ("OK")) :
    put_value_deliver n (ReadResult.ok (Reply.status ("OK"))
        :: (qs ++ [ReadResult.ok (Reply.array elems)]))
      = Outcome.delivered cache_result_t.ERROR := by
  have h1 : expect_status ("OK") (ReadResult.ok (Reply.status ("OK"))
      :: (qs ++ [ReadResult.ok (Reply.array elems)]))
      = (true, qs ++ [ReadResult.ok (Reply.array elems)]) := rfl
  have hdrop : (qs ++ [ReadResult.ok (Reply.array elems)]).drop (n + 1)
      = [ReadResult.ok (Reply.array elems)] := by
    rw [← hq, List.drop_left]
  unfold put_value_deliver
  rw [h1]
  show (match getReply (expect_n_status (n + 1) ("QUEUED")
          (qs ++ [ReadResult.ok (Reply.array elems)])).2 with
        | (some reply, _) => put_value_consume_exec n reply
        | (none, _) => Outcome.delivered cache_result_t.ERROR)
      = Outcome.delivered cache_result_t.ERROR
  rw [expect_n_status_stream, hdrop]
  show put_value_consume_exec n (Reply.array elems) = Outcome.delivered cache_result_t.ERROR
  exact put_value_consume_exec_status_ne n elems m hlen hints hlast hm

/-- Claim C3 amended witness at a concrete input: one QUEUED reply and an
EXEC array whose single element is the status X. -/
theorem put_value_exec_set_status_mismatch_witness :
    put_value_deliver 0 (ReadResult.ok (Reply.status ("OK"))
        :: ([ReadResult.ok (Reply.status ("QUEUED"))]
            ++ [ReadResult.ok (Reply.array [Reply.status ("X")])]))
      = Outcome.delivered cache_result_t.ERROR :=
  put_value_exec_set_status_mismatch 0 [ReadResult.ok (Reply.status ("QUEUED"))]
    [Reply.status ("X")] ("X") rfl rfl rfl rfl (by decide)

/-- Claim C5: the claim states that with at least one gathered key the
delivered result is OK only if the MULTI reply matched Status OK.  The
non status branch of expect_status (lines 330 to 335) logs but never sets
REDIS_ERR, so a MULTI reply of Integer 7 counts as a match and invalidate
delivers OK.  This theorem evaluates the model at that failing input: one
word whose HGETALL returns one key, a MULTI reply of Integer 7, two QUEUED
statuses and a well formed EXEC reply. -/
theorem invalidate_nonstatus_multi_delivers_ok :
    invalidate_deliver [[7]]
      [ReadResult.ok (Reply.array [Reply.string [1], Reply.string [9]]),
       ReadResult.ok (Reply.integer 7),
       ReadResult.ok (Reply.status ("QUEUED")),
       ReadResult.ok (Reply.status ("QUEUED")),
       ReadResult.ok (Reply.array [Reply.integer 1, Reply.integer 1])]
      = Outcome.delivered cache_result_t.OK := by
  decide

/-- Claim C4 counterexample: the claim states that a PORT outside
(0, 65535] is rejected with null; the code only checks that the port is
positive, so create accepts h:70000 and returns an instance. -/
theorem create_accepts_port_70000 :
    RedisStorage.create ("h:70000") = some (("h"), 70000)
  ∧ RedisStorage.create ("h:70000") ≠ none := by
  exact ⟨by decide, by decide⟩

/-- Claim C4 amended: create returns null exactly when the arguments do not
split into two colon separated fields or the PORT field does not parse as a
decimal integer strictly greater than zero; no upper bound on the port is
enforced, so every well formed HOST:PORT with a positive port yields an
instance. -/
theorem create_accepts_iff (arguments : String) :
    (∃ hp, RedisStorage.create arguments = some hp) ↔
      ∃ host port_str port, strtok_colon arguments = [host, port_str]
        ∧ get_int port_str = some port ∧ 0 < port := by
  unfold RedisStorage.create
  cases hts : strtok_colon arguments with
  | nil =>
    simp only [hts]
    constructor
    · rintro ⟨hp, h⟩; cases h
    · rintro ⟨host, ps, port, h1, _⟩; cases h1
  | cons a t =>
    cases t with
    | nil =>
      simp only [hts]
      constructor
      · rintro ⟨hp, h⟩; cases h
      · rintro ⟨host, ps, port, h1, _⟩; simp at h1
    | cons b t2 =>
      cases t2 with
      | cons c t3 =>
        simp only [hts]
        constructor
        · rintro ⟨hp, h⟩; cases h
        · rintro ⟨host, ps, port, h1, _⟩; simp at h1
      | nil =>
        simp only [hts]
        cases hgi : get_int b with
        | none =>
          simp only [hgi]
          constructor
          · rintro ⟨hp, h⟩; cases h
          · rintro ⟨host, ps, port, h1, h2, _⟩
            have hb : ps = b := by simp at h1; exact h1.2.symm
            rw [hb, hgi] at h2
            cases h2
        | some port =>
          simp only [hgi]
          by_cases hpos : 0 < port
          · simp only [if_pos hpos]
            constructor
            · intro _; exact ⟨a, b, port, rfl, hgi, hpos⟩
            · intro _; exact ⟨(a, port), rfl⟩
          · simp only [if_neg hpos]
            constructor
            · rintro ⟨hp, h⟩; cases h
            · rintro ⟨host, ps, p2, h1, h2, h3⟩
              have hb : ps = b := by simp at h1; exact h1.2.symm
              rw [hb, hgi] at h2
              have : p2 = port := by cases h2; rfl
              rw [this] at h3
              exact absurd h3 hpos

/-- Claim C4 amended witness: h:7 is two fields with a positive port, so
create accepts it. -/
theorem create_accepts_iff_witness :
    ∃ hp, RedisStorage.create ("h:7") = some hp :=
  (create_accepts_iff ("h:7")).2 ⟨("h"), ("7"), 7, by decide, by decide, by decide⟩

/-- Claim C6: get_value classifies the GET reply as follows: a String reply
delivers OK together with a buffer byte equal to the reply payload, a Nil
reply delivers NOT_FOUND with no value, and any other reply type or a
failed read delivers ERROR with no value. -/
theorem get_value_reply_classification (r : Option Reply) :
    (∀ b, r = some (Reply.string b) → get_value_job r = (cache_result_t.OK, some b))
  ∧ (r = some Reply.nil → get_value_job r = (cache_result_t.NOT_FOUND, none))
  ∧ ((∀ b, r ≠ some (Reply.string b)) → r ≠ some Reply.nil →
        get_value_job r = (cache_result_t.ERROR, none)) := by
  refine ⟨?_, ?_, ?_⟩
  · intro b hb; subst hb; rfl
  · intro hb; subst hb; rfl
  · intro hs hn
    cases r with
    | none => rfl
    | some rep =>
      cases rep with
      | array es => rfl
      | error m => rfl
      | integer i => rfl
      | nil => exact absurd rfl hn
      | status m => rfl
      | string b => exact absurd rfl (hs b)

/-- Claim C6 witness at concrete replies: a string reply, the nil reply and
an integer reply. -/
theorem get_value_reply_classification_witness :
    get_value_job (some (Reply.string [3])) = (cache_result_t.OK, some [3])
  ∧ get_value_job (some Reply.nil) = (cache_result_t.NOT_FOUND, none)
  ∧ get_value_job (some (Reply.integer 5)) = (cache_result_t.ERROR, none) :=
  ⟨(get_value_reply_classification (some (Reply.string [3]))).1 [3] rfl,
   (get_value_reply_classification (some Reply.nil)).2.1 rfl,
   (get_value_reply_classification (some (Reply.integer 5))).2.2
     (by intro b h; simp at h) (by simp)⟩

/-- Claim C7: del_value classifies the DEL reply as follows: Integer 0
delivers NOT_FOUND, Integer 1 delivers OK, any other positive integer
delivers OK (after a warning), and a non integer reply or a failed read
delivers ERROR. -/
theorem del_value_reply_classification (r : Option Reply) :
    (r = some (Reply.integer 0) → del_value_job r = cache_result_t.NOT_FOUND)
  ∧ (r = some (Reply.integer 1) → del_value_job r = cache_result_t.OK)
  ∧ (∀ i : Int, 1 < i → r = some (Reply.integer i) → del_value_job r = cache_result_t.OK)
  ∧ (∀ rep, r = some rep → rep.is_integer = false → del_value_job r = cache_result_t.ERROR)
  ∧ (r = none → del_value_job r = cache_result_t.ERROR) := by
  refine ⟨?_, ?_, ?_, ?_, ?_⟩
  · intro h; subst h; rfl
  · intro h; subst h; rfl
  · intro i hi h; subst h
    show (if i = 0 then cache_result_t.NOT_FOUND else cache_result_t.OK) = cache_result_t.OK
    rw [if_neg (by omega)]
  · intro rep h hni; subst h
    cases rep with
    | array es => rfl
    | error m => rfl
    | integer i => simp [Reply.is_integer] at hni
    | nil => rfl
    | status m => rfl
    | string b => rfl
  · intro h; subst h; rfl

/-- Claim C7 witness at concrete replies: integers 0, 1 and 3, a status
reply and a failed read. -/
theorem del_value_reply_classification_witness :
    del_value_job (some (Reply.integer 0)) = cache_result_t.NOT_FOUND
  ∧ del_value_job (some (Reply.integer 1)) = cache_result_t.OK
  ∧ del_value_job (some (Reply.integer 3)) = cache_result_t.OK
  ∧ del_value_job (some (Reply.status ("OK"))) = cache_result_t.ERROR
  ∧ del_value_job none = cache_result_t.ERROR :=
  ⟨(del_value_reply_classification (some (Reply.integer 0))).1 rfl,
   (del_value_reply_classification (some (Reply.integer 1))).2.1 rfl,
   (del_value_reply_classification (some (Reply.integer 3))).2.2.1 3 (by decide) rfl,
   (del_value_reply_classification (some (Reply.status ("OK")))).2.2.2.1
     (Reply.status ("OK")) rfl rfl,
   (del_value_reply_classification none).2.2.2.2 rfl⟩

/-- Claim C8: put_value issues its commands in exactly this order: MULTI
first, then one HSET per invalidation word in list order (possibly zero of
them) with the key as field and the literal 1 as value, then the SET of the
value, then EXEC last. -/
theorem put_value_pipeline_order (ttl : Nat) (rkey : Bytes) (ws : List Bytes) (v : Bytes) :
    put_value_send ttl rkey ws v =
      Command.MULTI :: ((ws.map fun w => Command.HSET w rkey ("1"))
        ++ [Command.SET rkey v (some ttl), Command.EXEC]) := by
  unfold put_value_send
  rw [foldl_append_map]
  simp

/-- Claim C9: for every operation the completion is posted to the worker
stored by the token constructor, the worker that was current when the token
was created, and the user callback is invoked at most once.  The worker
dispatch itself (mxb::Worker, spec section 4.4) is outside src and is
modelled from the spec as the worker tag of the posted completion. -/
theorem token_callbacks_worker_affine (w ttl u n : Nat) (r r2 : Option Reply)
    (s s2 : List ReadResult) (words : List Bytes) :
    ((RedisToken.create w ttl).run_get_value u r).worker = w
  ∧ ((RedisToken.create w ttl).run_get_value u r).invocations ≤ 1
  ∧ ((RedisToken.create w ttl).run_del_value u r2).worker = w
  ∧ ((RedisToken.create w ttl).run_del_value u r2).invocations ≤ 1
  ∧ (∀ c, (RedisToken.create w ttl).run_put_value u n s = some c →
        c.worker = w ∧ c.invocations ≤ 1)
  ∧ (∀ c, (RedisToken.create w ttl).run_invalidate u words s2 = some c →
        c.worker = w ∧ c.invocations ≤ 1) := by
  refine ⟨rfl, cb_invocations_le_one u, rfl, cb_invocations_le_one u, ?_, ?_⟩
  · intro c hc
    unfold RedisToken.run_put_value at hc
    cases hdel : put_value_deliver n s with
    | delivered rv =>
      rw [hdel] at hc
      cases hc
      exact ⟨rfl, cb_invocations_le_one u⟩
    | crash =>
      rw [hdel] at hc
      cases hc
  · intro c hc
    unfold RedisToken.run_invalidate at hc
    cases hdel : invalidate_deliver words s2 with
    | delivered rv =>
      rw [hdel] at hc
      cases hc
      exact ⟨rfl, cb_invocations_le_one u⟩
    | crash =>
      rw [hdel] at hc
      cases hc

/-- Claim C9 witness: a token created on worker 3 with use count 2 posts its
get_value completion to worker 3, and the empty stream put_value completion
is posted to worker 3 with at most one callback invocation. -/
theorem token_callbacks_worker_affine_witness :
    ((RedisToken.create 3 0).run_get_value 2 (some Reply.nil)).worker = 3
  ∧ ((⟨3, cb_invocations 2, cache_result_t.OK⟩ : Completion cache_result_t).worker = 3
      ∧ (⟨3, cb_invocations 2, cache_result_t.OK⟩ : Completion cache_result_t).invocations ≤ 1) :=
  ⟨(token_callbacks_worker_affine 3 0 2 0 (some Reply.nil) (some Reply.nil) [] [] []).1,
   (token_callbacks_worker_affine 3 0 2 0 (some Reply.nil) (some Reply.nil) [] [] []).2.2.2.2.1
     (⟨3, cb_invocations 2, cache_result_t.OK⟩ : Completion cache_result_t) rfl⟩

/-- Claim C10: invalidate with an empty word list issues no HGETALL, skips
the transaction entirely (no MULTI, HDEL, DEL or EXEC) and delivers OK, for
every state of the connection. -/
theorem invalidate_empty_words (s : List ReadResult) :
    invalidate_send [] s = []
  ∧ invalidate_deliver [] s = Outcome.delivered cache_result_t.OK :=
  ⟨rfl, rfl⟩
